import Mathlib

/-!
Verification of the request dispatch and passthrough orchestration layer of
sgcache (src/sgcache/web/core.py), a caching front-end for a JSON-RPC-over-HTTP
protocol.  The Python source is shallowly embedded: JSON values become an
inductive type, Python exceptions become an error type threaded through
Except, the generator-based two-phase handler protocol becomes an inductive
interaction tree, and the upstream HTTP server becomes an oracle function
supplied in the environment.  Log lines are modelled as structured events
carrying the interpolated data.
-/

namespace SGCache

/-- Python/JSON values as passed around by the dispatcher. -/
inductive Json where
  | null
  | bool (b : Bool)
  | num (n : Int)
  | str (s : String)
  | arr (xs : List Json)
  | obj (fields : List (String × Json))

mutual

/-- Decidable equality on Json values. -/
def Json.decEq : (a b : Json) → Decidable (a = b)
  | .null, .null => isTrue rfl
  | .null, .bool _ => isFalse (fun h => Json.noConfusion h)
  | .null, .num _ => isFalse (fun h => Json.noConfusion h)
  | .null, .str _ => isFalse (fun h => Json.noConfusion h)
  | .null, .arr _ => isFalse (fun h => Json.noConfusion h)
  | .null, .obj _ => isFalse (fun h => Json.noConfusion h)
  | .bool _, .null => isFalse (fun h => Json.noConfusion h)
  | .bool a, .bool b =>
      if h : a = b then isTrue (by rw [h])
      else isFalse (fun hh => h (Json.bool.inj hh))
  | .bool _, .num _ => isFalse (fun h => Json.noConfusion h)
  | .bool _, .str _ => isFalse (fun h => Json.noConfusion h)
  | .bool _, .arr _ => isFalse (fun h => Json.noConfusion h)
  | .bool _, .obj _ => isFalse (fun h => Json.noConfusion h)
  | .num _, .null => isFalse (fun h => Json.noConfusion h)
  | .num _, .bool _ => isFalse (fun h => Json.noConfusion h)
  | .num a, .num b =>
      if h : a = b then isTrue (by rw [h])
      else isFalse (fun hh => h (Json.num.inj hh))
  | .num _, .str _ => isFalse (fun h => Json.noConfusion h)
  | .num _, .arr _ => isFalse (fun h => Json.noConfusion h)
  | .num _, .obj _ => isFalse (fun h => Json.noConfusion h)
  | .str _, .null => isFalse (fun h => Json.noConfusion h)
  | .str _, .bool _ => isFalse (fun h => Json.noConfusion h)
  | .str _, .num _ => isFalse (fun h => Json.noConfusion h)
  | .str a, .str b =>
      if h : a = b then isTrue (by rw [h])
      else isFalse (fun hh => h (Json.str.inj hh))
  | .str _, .arr _ => isFalse (fun h => Json.noConfusion h)
  | .str _, .obj _ => isFalse (fun h => Json.noConfusion h)
  | .arr _, .null => isFalse (fun h => Json.noConfusion h)
  | .arr _, .bool _ => isFalse (fun h => Json.noConfusion h)
  | .arr _, .num _ => isFalse (fun h => Json.noConfusion h)
  | .arr _, .str _ => isFalse (fun h => Json.noConfusion h)
  | .arr xs, .arr ys =>
      match Json.decEqList xs ys with
      | isTrue h => isTrue (by rw [h])
      | isFalse h => isFalse (fun hh => h (Json.arr.inj hh))
  | .arr _, .obj _ => isFalse (fun h => Json.noConfusion h)
  | .obj _, .null => isFalse (fun h => Json.noConfusion h)
  | .obj _, .bool _ => isFalse (fun h => Json.noConfusion h)
  | .obj _, .num _ => isFalse (fun h => Json.noConfusion h)
  | .obj _, .str _ => isFalse (fun h => Json.noConfusion h)
  | .obj _, .arr _ => isFalse (fun h => Json.noConfusion h)
  | .obj fs, .obj gs =>
      match Json.decEqFields fs gs with
      | isTrue h => isTrue (by rw [h])
      | isFalse h => isFalse (fun hh => h (Json.obj.inj hh))

/-- Decidable equality on lists of Json values. -/
def Json.decEqList : (xs ys : List Json) → Decidable (xs = ys)
  | [], [] => isTrue rfl
  | [], _ :: _ => isFalse (fun h => List.noConfusion h)
  | _ :: _, [] => isFalse (fun h => List.noConfusion h)
  | x :: xs, y :: ys =>
      match Json.decEq x y with
      | isFalse h1 => isFalse (fun h => h1 (List.cons.inj h).1)
      | isTrue h1 =>
        match Json.decEqList xs ys with
        | isTrue h2 => isTrue (by rw [h1, h2])
        | isFalse h2 => isFalse (fun h => h2 (List.cons.inj h).2)

/-- Decidable equality on Json object field lists. -/
def Json.decEqFields : (fs gs : List (String × Json)) → Decidable (fs = gs)
  | [], [] => isTrue rfl
  | [], _ :: _ => isFalse (fun h => List.noConfusion h)
  | _ :: _, [] => isFalse (fun h => List.noConfusion h)
  | (k1, v1) :: fs, (k2, v2) :: gs =>
      if h1 : k1 = k2 then
        match Json.decEq v1 v2 with
        | isFalse h2 =>
            isFalse (fun h => h2 (congrArg Prod.snd (List.cons.inj h).1))
        | isTrue h2 =>
          match Json.decEqFields fs gs with
          | isTrue h3 => isTrue (by rw [h1, h2, h3])
          | isFalse h3 => isFalse (fun h => h3 (List.cons.inj h).2)
      else isFalse (fun h => h1 (congrArg Prod.fst (List.cons.inj h).1))

end

instance : DecidableEq Json := Json.decEq

/-- Python exceptions that appear in src/sgcache/web/core.py.  ReturnResponse
and ReturnPassthroughError are defined in the file itself (ReturnPassthroughError
is a subclass of ReturnResponse); Fault and Passthrough come from the
exceptions module and are modelled from the spec as a coded domain error and a
delegation signal.  The remaining constructors are builtin Python exceptions
raised by the operations the code performs. -/
inductive PyErr where
  | returnResponse (text : String) (status : Nat) (headers : List (String × String))
  | returnPassthroughError (body : String) (status : Nat) (headers : List (String × String))
  | fault (code : Int) (msg : String)
  | passthroughExc (msg : String)
  | keyError (key : String)
  | typeError (msg : String)
  | nameError (name : String)
  | attributeError (name : String)
  | jsonDecodeError
  | stopIteration
  | indexError
deriving DecidableEq, Repr

/-- A Flask wire response: body text (streamed bodies are modelled by their
full byte content), status code, and headers. -/
structure WireResponse where
  body : String
  status : Nat
  headers : List (String × String)
deriving DecidableEq, Repr

/-- One HTTP request issued to the upstream server by http_session.post. -/
structure UpstreamCall where
  url : String
  body : String
  headers : List (String × String)
  stream : Bool
deriving DecidableEq, Repr

/-- The upstream server's answer: status code, body text, headers. -/
structure HttpResponse where
  status : Nat
  text : String
  headers : List (String × String)
deriving DecidableEq, Repr

/-- The fallback server base URL (loaded from configuration in the source;
its concrete value is irrelevant to the dispatch logic). -/
def FALLBACK_SERVER : String := "https://upstream.example"

/-- FALLBACK_URL = FALLBACK_SERVER + '/api3/json'. -/
def FALLBACK_URL : String := FALLBACK_SERVER ++ "/api3/json"

/-- The Content-Type header produced by mimetype='application/json'. -/
def ctJson : List (String × String) := [("Content-Type", "application/json")]

/-- Python's str.lower for header names (ASCII case folding), used for
the case-insensitive header comparisons below. -/
def lowerStr (s : String) : String := ⟨s.data.map Char.toLower⟩

/-- werkzeug's hop-by-hop header names (lower case). -/
def HOP_BY_HOP_HEADERS : List String :=
  ["connection", "keep-alive", "proxy-authenticate", "proxy-authorization",
   "te", "trailer", "transfer-encoding", "upgrade"]

/-- werkzeug.http.remove_hop_by_hop_headers: drop every hop-by-hop header,
case-insensitively. -/
def remove_hop_by_hop_headers (hs : List (String × String)) : List (String × String) :=
  hs.filter (fun kv => !(HOP_BY_HOP_HEADERS.contains (lowerStr kv.1)))

/-- Header sanitization performed at the top of passthrough and proxy:
drop the Host header, then drop all hop-by-hop headers. -/
def sanitizeHeaders (hs : List (String × String)) : List (String × String) :=
  remove_hop_by_hop_headers (hs.filter (fun kv => !(lowerStr kv.1 == "host")))

/-- Escape a string for JSON output (quote and backslash; a model of
Python's json.dumps string escaping, sufficient for the payloads below). -/
def escapeStr (s : String) : String :=
  s.data.foldl
    (fun acc c =>
      acc ++ (if c = '"' then "\\\"" else if c = '\\' then "\\\\" else String.singleton c))
    ""

mutual

/-- Python json.dumps with its default separators (', ' and ': ');
object fields are emitted in stored order. -/
def jsonDumps : Json → String
  | .null => "null"
  | .bool true => "true"
  | .bool false => "false"
  | .num n => toString n
  | .str s => "\"" ++ escapeStr s ++ "\""
  | .arr xs => "[" ++ dumpList xs ++ "]"
  | .obj fs => "\x7b" ++ dumpFields fs ++ "\x7d"

/-- Comma-separated serialization of a JSON array's items. -/
def dumpList : List Json → String
  | [] => ""
  | [x] => jsonDumps x
  | x :: y :: xs => jsonDumps x ++ ", " ++ dumpList (y :: xs)

/-- Comma-separated serialization of a JSON object's fields. -/
def dumpFields : List (String × Json) → String
  | [] => ""
  | [(k, v)] => "\"" ++ escapeStr k ++ "\": " ++ jsonDumps v
  | (k, v) :: f :: fs =>
      "\"" ++ escapeStr k ++ "\": " ++ jsonDumps v ++ ", " ++ dumpFields (f :: fs)

end

/-- Skip JSON whitespace. -/
def skipWs : List Char → List Char
  | c :: cs => if c = ' ' ∨ c = '\n' ∨ c = '\t' ∨ c = '\r' then skipWs cs else c :: cs
  | [] => []

/-- Collect a maximal run of decimal digits. -/
def takeDigits : List Char → List Char × List Char
  | c :: cs =>
      if c.isDigit then
        let (ds, rest) := takeDigits cs
        (c :: ds, rest)
      else ([], c :: cs)
  | [] => ([], [])

/-- Numeric value of a digit list. -/
def digitsToNat (ds : List Char) : Nat :=
  ds.foldl (fun acc c => 10 * acc + (c.toNat - '0'.toNat)) 0

mutual

/-- Fueled recursive-descent JSON value parser (model of json.loads). -/
def parseVal : Nat → List Char → Option (Json × List Char)
  | 0, _ => none
  | fuel + 1, cs =>
    match skipWs cs with
    | '"' :: rest =>
        match parseStr fuel rest with
        | some (s, r) => some (.str s, r)
        | none => none
    | 't' :: 'r' :: 'u' :: 'e' :: r => some (.bool true, r)
    | 'f' :: 'a' :: 'l' :: 's' :: 'e' :: r => some (.bool false, r)
    | 'n' :: 'u' :: 'l' :: 'l' :: r => some (.null, r)
    | '[' :: r =>
        (match skipWs r with
         | ']' :: r2 => some (.arr [], r2)
         | r2 =>
            match parseArrItems fuel r2 with
            | some (xs, r3) => some (.arr xs, r3)
            | none => none)
    | '\x7b' :: r =>
        (match skipWs r with
         | '\x7d' :: r2 => some (.obj [], r2)
         | r2 =>
            match parseObjItems fuel r2 with
            | some (fs, r3) => some (.obj fs, r3)
            | none => none)
    | '-' :: r =>
        (match takeDigits r with
         | ([], _) => none
         | (ds, rest) => some (.num (-(digitsToNat ds : Int)), rest))
    | c :: r =>
        if c.isDigit then
          match takeDigits (c :: r) with
          | (ds, rest) => some (.num (digitsToNat ds : Int), rest)
        else none
    | [] => none

/-- Parse the remaining characters of a JSON string literal. -/
def parseStr : Nat → List Char → Option (String × List Char)
  | 0, _ => none
  | fuel + 1, cs =>
    match cs with
    | '"' :: rest => some ("", rest)
    | '\\' :: c :: rest =>
        (match parseStr fuel rest with
         | some (s, r) =>
            let d := if c = 'n' then '\n' else if c = 't' then '\t' else c
            some (String.singleton d ++ s, r)
         | none => none)
    | c :: rest =>
        (match parseStr fuel rest with
         | some (s, r) => some (String.singleton c ++ s, r)
         | none => none)
    | [] => none

/-- Parse the items of a non-empty JSON array (after the opening bracket). -/
def parseArrItems : Nat → List Char → Option (List Json × List Char)
  | 0, _ => none
  | fuel + 1, cs =>
    match parseVal fuel cs with
    | none => none
    | some (v, rest) =>
      match skipWs rest with
      | ',' :: r2 =>
          (match parseArrItems fuel r2 with
           | some (xs, r3) => some (v :: xs, r3)
           | none => none)
      | ']' :: r2 => some ([v], r2)
      | _ => none

/-- Parse the fields of a non-empty JSON object (after the opening brace). -/
def parseObjItems : Nat → List Char → Option (List (String × Json) × List Char)
  | 0, _ => none
  | fuel + 1, cs =>
    match skipWs cs with
    | '"' :: rest =>
      (match parseStr fuel rest with
       | none => none
       | some (k, r1) =>
         match skipWs r1 with
         | ':' :: r2 =>
           (match parseVal fuel r2 with
            | none => none
            | some (v, r3) =>
              match skipWs r3 with
              | ',' :: r4 =>
                  (match parseObjItems fuel r4 with
                   | some (fs, r5) => some ((k, v) :: fs, r5)
                   | none => none)
              | '\x7d' :: r4 => some ([(k, v)], r4)
              | _ => none)
         | _ => none)
    | _ => none

end

/-- Model of Python's json.loads: parse the full input or raise a decode
error (a ValueError subclass). -/
def jsonLoads (s : String) : Except PyErr Json :=
  match parseVal (2 * s.length + 4) s.data with
  | some (v, rest) => if skipWs rest = [] then .ok v else .error .jsonDecodeError
  | none => .error .jsonDecodeError

/-- Python truthiness of a value. -/
def pyTruthy : Json → Bool
  | .null => false
  | .bool b => b
  | .num n => n != 0
  | .str s => s.length != 0
  | .arr xs => xs.length != 0
  | .obj fs => fs.length != 0

/-- Look up a key among an object's fields (first match). -/
def lookupField : List (String × Json) → String → Option Json
  | [], _ => none
  | (k, v) :: fs, key => if k = key then some v else lookupField fs key

/-- Python subscription v[i] for a non-negative index: lists and strings
index positionally, dicts with string keys raise KeyError for an integer
key, everything else raises TypeError. -/
def pyIndexNat : Json → Nat → Except PyErr Json
  | .arr xs, i =>
      (match xs.get? i with
       | some v => .ok v
       | none => .error .indexError)
  | .str s, i =>
      (match s.data.get? i with
       | some c => .ok (.str (String.singleton c))
       | none => .error .indexError)
  | .obj _, i => .error (.keyError (toString i))
  | _, _ => .error (.typeError "object is not subscriptable")

/-- Python len(v). -/
def pyLen : Json → Except PyErr Nat
  | .arr xs => .ok xs.length
  | .str s => .ok s.length
  | .obj fs => .ok fs.length
  | _ => .error (.typeError "object has no length")

/-- Python v[key] for a string key. -/
def pyGetItem : Json → String → Except PyErr Json
  | .obj fs, key =>
      (match lookupField fs key with
       | some v => .ok v
       | none => .error (.keyError key))
  | _, _ => .error (.typeError "indices must be integers")

/-- Python v.get(key): defined on dicts (missing key gives None);
AttributeError on anything else. -/
def pyGet : Json → String → Except PyErr Json
  | .obj fs, key => .ok ((lookupField fs key).getD .null)
  | _, _ => .error (.attributeError "get")

/-- Python membership test key in v, as used on decoded upstream data:
key lookup on dicts, element equality on lists, substring test on strings,
TypeError otherwise. -/
def pyContains (v : Json) (key : String) : Except PyErr Bool :=
  match v with
  | .obj fs => .ok (fs.any (fun kv => kv.1 == key))
  | .arr xs => .ok (xs.any (fun x => x == .str key))
  | .str s => .ok (decide ((s.splitOn key).length > 1))
  | _ => .error (.typeError "argument is not iterable")

/-- Replace the value stored under a key in a dict, keeping its position
(Python dict item assignment for an existing key; appended if absent). -/
def setField : List (String × Json) → String → Json → List (String × Json)
  | [], key, v => [(key, v)]
  | (k, w) :: fs, key, v =>
      if k = key then (k, v) :: fs else (k, w) :: setField fs key v

/-- The statement payload['params'][-1] = params of the source: fetch the
params entry (KeyError if absent, TypeError when payload is not a dict),
then assign its last item (IndexError on an empty list, TypeError when the
entry is not a list). -/
def setLastParam (payload : Json) (p : Json) : Except PyErr Json :=
  match payload with
  | .obj fs =>
    (match lookupField fs "params" with
     | some (.arr xs) =>
        if xs.isEmpty then .error .indexError
        else .ok (.obj (setField fs "params" (.arr (xs.set (xs.length - 1) p))))
     | some _ => .error (.typeError "object does not support item assignment")
     | none => .error (.keyError "params"))
  | _ => .error (.typeError "object does not support item assignment")

/-- A suspended Python generator, as produced by a two-phase handler:
it either finishes (StopIteration on the next resumption), raises, or
yields a value together with a continuation that receives what the driver
sends (Except.ok) or throws (Except.error) into it. -/
inductive Gen where
  | stop
  | raise (e : PyErr)
  | yield (v : Json) (k : Except PyErr Json → Gen)

/-- What a registered handler call evaluates to: a plain value, a
generator (two-phase handler), or a prebuilt Response object. -/
inductive HandlerValue where
  | val (v : Json)
  | gen (g : Gen)
  | resp (r : WireResponse)

/-- A registered API method handler: called with the method params, it
returns a HandlerValue or raises. -/
def Handler := Json → Except PyErr HandlerValue

/-- The per-request environment: the raw POST body, the request headers,
the method registry, the debug flag, and the upstream server modelled as a
function from requests to responses. -/
structure Env where
  requestData : String
  requestHeaders : List (String × String)
  registry : List (String × Handler)
  debug : Bool
  upstream : UpstreamCall → HttpResponse

/-- The two non-exception shapes passthrough can return. -/
inductive PassthroughValue where
  | respV (r : WireResponse)
  | dataV (d : Json)
deriving DecidableEq

/-- Outcome of one passthrough call: the result (wire response, decoded
JSON data, or a raised exception), the post-call value of g.api3_payload,
and the upstream calls issued.  The copy.deepcopy at the top of the source
function means the stored envelope is never mutated by the params
substitution; the explicit state threading here makes that visible. -/
structure PassthroughOut where
  result : Except PyErr PassthroughValue
  api3_payload : Json
  calls : List UpstreamCall

/-- Lines 57-60 of passthrough: default the payload to the deep-copied
stored envelope when the payload argument is None, then substitute the
params override into the last params slot when one was given. -/
def effectivePayload (api3_payload payloadArg paramsArg : Json) : Except PyErr Json :=
  let payload0 := if payloadArg = .null then api3_payload else payloadArg
  if paramsArg = .null then .ok payload0 else setLastParam payload0 paramsArg

/-- The body bytes sent upstream: a string payload is posted as is, any
other payload is serialized with json.dumps (lines 62-63). -/
def payloadData : Json → String
  | .str s => s
  | v => jsonDumps v

/-- Shallow embedding of the passthrough function (src/sgcache/web/core.py,
lines 50-86).  Python's None arguments for payload and params are the Json
value null, matching the is-None tests of the source. -/
def passthrough (env : Env) (api3_payload : Json)
    (payloadArg : Json) (paramsArg : Json)
    (raise_exceptions stream final : Bool) : PassthroughOut :=
  let headers := sanitizeHeaders env.requestHeaders
  match effectivePayload api3_payload payloadArg paramsArg with
  | .error e => ⟨.error e, api3_payload, []⟩
  | .ok payload1 =>
    let data := payloadData payload1
    let call : UpstreamCall := ⟨FALLBACK_URL, data, headers, stream⟩
    let http_response := env.upstream call
    if http_response.status ≠ 200 then
      ⟨.error (.returnPassthroughError http_response.text http_response.status ctJson),
       api3_payload, [call]⟩
    else if stream || final then
      ⟨.ok (.respV ⟨http_response.text, 200, ctJson⟩), api3_payload, [call]⟩
    else
      match jsonLoads http_response.text with
      | .error e => ⟨.error e, api3_payload, [call]⟩
      | .ok response_data =>
        match pyContains response_data "exception" with
        | .error e => ⟨.error e, api3_payload, [call]⟩
        | .ok hasExc =>
          if raise_exceptions && hasExc then
            ⟨.error (.returnResponse http_response.text 200 ctJson), api3_payload, [call]⟩
          else
            ⟨.ok (.dataV response_data), api3_payload, [call]⟩

/-- The actor identity named in the headline log line. -/
inductive Actor where
  | script (s : Json) (sudoAs : Option Json)
  | user (u : Json)
deriving DecidableEq

/-- Structured model of the dispatcher's log lines, carrying the data each
line interpolates. -/
inductive LogEvent where
  | headline (methodName : Json) (entityTypeShown : Option Json)
             (batchSummary : Option (List (Json × Nat))) (actor : Option Actor)
  | unknownMethod (methodName : Json)
  | faultWarning (code : Int) (msg : String)
  | passthroughNotice (methodName : Json) (excMsg : String)
  | extraYield (v : Json)
  | returned (countAndType : Option (Nat × Json))
deriving DecidableEq

/-- The envelope fields json_api extracts (lines 117-120 of the source). -/
structure EnvelopeCtx where
  methodName : Json
  params : Json
  authParams : Json
  methodParams : Json
deriving DecidableEq

/-- Lines 117-122: method_name and params lookups, auth_params and
method_params defaults.  Only KeyError is caught by the surrounding
try/except in the source; other errors propagate through Except. -/
def extractEnvelope (fs : List (String × Json)) : Except PyErr EnvelopeCtx := do
  let methodName ← pyGetItem (.obj fs) "method_name"
  let params ← pyGetItem (.obj fs) "params"
  let authParams ← if pyTruthy params then pyIndexNat params 0 else .ok (.obj [])
  let n ← pyLen params
  let methodParams ← if n > 1 then pyIndexNat params 1 else .ok (.obj [])
  return ⟨methodName, params, authParams, methodParams⟩

/-- Increment the tally for a key, keeping first-occurrence order. -/
def tallyKey : List (Json × Nat) → Json → List (Json × Nat)
  | [], k => [(k, 1)]
  | (k', c) :: rest, k =>
      if k' = k then (k', c + 1) :: rest else (k', c) :: tallyKey rest k

/-- Count batch items per request_type (lines 132-134); a batch item
without the key raises KeyError, a non-dict item raises TypeError. -/
def batchCounts (xs : List Json) : Except PyErr (List (Json × Nat)) :=
  xs.foldlM
    (fun acc x => do
      let t ← pyGetItem x "request_type"
      return tallyKey acc t)
    []

/-- Stable ascending sort of the batch tallies by count (line 135). -/
def sortByCount (xs : List (Json × Nat)) : List (Json × Nat) :=
  xs.mergeSort (fun a b => a.2 ≤ b.2)

/-- The headline step's outputs: the log event, and the value of the local
variable entity_type (none when Python leaves it unbound, which happens
whenever method_params is not a dict). -/
structure HeadlineOut where
  event : LogEvent
  entityTypeVar : Option Json
deriving DecidableEq

/-- Lines 125-148: build the headline log line.  The entity_type local is
bound only in the dict branch; the batch summary is produced only in the
elif branch; actor identity from script_name/sudo_as_login or user_login,
each included only when truthy, exactly as in the source. -/
def headlineStep (ctx : EnvelopeCtx) : Except PyErr HeadlineOut := do
  let pair ←
    match ctx.methodParams with
    | .obj fs =>
        let et := (lookupField fs "type").getD .null
        pure ((some et, if pyTruthy et then some et else none) :
          Option Json × Option Json)
    | _ => pure ((none, none) : Option Json × Option Json)
  let batchSummary ←
    match ctx.methodParams with
    | .obj _ => pure (none : Option (List (Json × Nat)))
    | .arr xs =>
        if ctx.methodName = .str "batch" then do
          let counts ← batchCounts xs
          pure (some (sortByCount counts))
        else pure none
    | _ => pure none
  let script_name ← pyGet ctx.authParams "script_name"
  let actor ←
    if pyTruthy script_name then do
      let su ← pyGet ctx.authParams "sudo_as_login"
      pure (some (Actor.script script_name (if pyTruthy su then some su else none)))
    else do
      let user ← pyGet ctx.authParams "user_login"
      pure (if pyTruthy user then some (Actor.user user) else none)
  return ⟨.headline ctx.methodName pair.2 batchSummary actor, pair.1⟩

/-- The possible shapes of the result local of json_api: raw data, a
Response object, the (text, status, headers) args tuple of a caught
ReturnResponse, or the one-element args tuple of a caught
ReturnPassthroughError holding the Response it carried. -/
inductive PyResult where
  | json (v : Json)
  | resp (r : WireResponse)
  | tupleTSH (text : String) (status : Nat) (headers : List (String × String))
  | tupleResp (body : String) (status : Nat) (headers : List (String × String))
deriving DecidableEq

/-- The loop for x in coroutine (lines 179-180) after the final result was
obtained: each further next() delivers None into the generator; yielded
values are collected in order (each is logged as a warning), and an
exception raised by the generator propagates. -/
def drainGen : Gen → List Json × Option PyErr
  | .stop => ([], none)
  | .raise e => ([], some e)
  | .yield x k =>
      let r := drainGen (k (.ok .null))
      (x :: r.1, r.2)

/-- Outcome of the try body (lines 162-180): the result or raised
exception, extra yielded values in order, upstream calls, the values
delivered into the generator at the send/throw site, and the post-call
g.api3_payload. -/
structure TryOut where
  result : Except PyErr PyResult
  warns : List Json
  calls : List UpstreamCall
  resumptions : List (Except PyErr Json)
  api3_payload : Json

/-- Lines 162-180: invoke the handler; when it returns a generator run the
two-phase protocol: next() obtains the passthrough params override, the
driver issues the buffered passthrough call, and on failure the source
evaluates coroutine.throw(*sys.exc_info()) - but sys is never imported in
this module, so a NameError is raised instead and the generator never sees
the failure.  On success the decoded result is sent in, the next yielded
value becomes the result, and remaining yields are drained. -/
def tryBlock (env : Env) (api3_payload : Json) (h : Handler)
    (methodParams : Json) : TryOut :=
  match h methodParams with
  | .error e => ⟨.error e, [], [], [], api3_payload⟩
  | .ok (.val v) => ⟨.ok (.json v), [], [], [], api3_payload⟩
  | .ok (.resp r) => ⟨.ok (.resp r), [], [], [], api3_payload⟩
  | .ok (.gen g) =>
    match g with
    | .stop => ⟨.error .stopIteration, [], [], [], api3_payload⟩
    | .raise e => ⟨.error e, [], [], [], api3_payload⟩
    | .yield passthrough_params k =>
      let po := passthrough env api3_payload .null passthrough_params true false false
      match po.result with
      | .error _ =>
          ⟨.error (.nameError "sys"), [], po.calls, [], po.api3_payload⟩
      | .ok pv =>
        let sent : Json := match pv with
          | .dataV d => d
          | .respV r => .str r.body
        match k (.ok sent) with
        | .stop => ⟨.error .stopIteration, [], po.calls, [.ok sent], po.api3_payload⟩
        | .raise e => ⟨.error e, [], po.calls, [.ok sent], po.api3_payload⟩
        | .yield r k2 =>
          let dr := drainGen (k2 (.ok .null))
          match dr.2 with
          | some e => ⟨.error e, dr.1, po.calls, [.ok sent], po.api3_payload⟩
          | none => ⟨.ok (.json r), dr.1, po.calls, [.ok sent], po.api3_payload⟩

/-- Outcome of the exception dispatch (lines 183-210). -/
structure ExcOut where
  result : Except PyErr PyResult
  logs : List LogEvent
  calls : List UpstreamCall

/-- Lines 183-210, the ordered except clauses.  except ReturnResponse
catches its subclass ReturnPassthroughError too, binding result to e.args.
The Fault clause logs the warning and then evaluates json.dumps(res_data),
but the local is named result_data, so a NameError is raised.  The
Passthrough clause logs and delegates via a streaming passthrough.  Any
other exception propagates. -/
def exceptDispatch (env : Env) (api3_payload : Json) (methodName : Json) :
    Except PyErr PyResult → ExcOut
  | .ok r => ⟨.ok r, [], []⟩
  | .error e =>
    match e with
    | .returnResponse t s hs => ⟨.ok (.tupleTSH t s hs), [], []⟩
    | .returnPassthroughError b s hs => ⟨.ok (.tupleResp b s hs), [], []⟩
    | .fault c m => ⟨.error (.nameError "res_data"), [.faultWarning c m], []⟩
    | .passthroughExc m =>
        let po := passthrough env api3_payload .null .null true true false
        let outcome : Except PyErr PyResult := match po.result with
          | .ok (.respV r) => .ok (.resp r)
          | .ok (.dataV d) => .ok (.json d)
          | .error e' => .error e'
        ⟨outcome, [.passthroughNotice methodName m], po.calls⟩
    | e => ⟨.error e, [], []⟩

/-- Lines 212-215: num_entities is the length of result['entities'] when
result is a dict containing that key, None otherwise. -/
def numEntitiesOf (r : PyResult) : Except PyErr (Option Nat) :=
  match r with
  | .json (.obj fs) =>
      (match lookupField fs "entities" with
       | some v => (pyLen v).map some
       | none => .ok none)
  | _ => .ok none

/-- json.dumps applied to a caught (text, status, headers) args tuple
serializes it as a JSON array (line 220 does not recognize such a tuple as
a response, because its first element is not a Response object). -/
def tripleJson (t : String) (s : Nat) (hs : List (String × String)) : Json :=
  .arr [.str t, .num (s : Int),
        .arr (hs.map (fun kv => .arr [.str kv.1, .str kv.2]))]

/-- Lines 219-220: a Response, or a tuple whose first element is a
Response, is passed on unchanged; anything else is serialized to a
(json.dumps(result), 200, Content-Type json) triple.  Subscripting an
empty list result raises IndexError. -/
def serializeResult : PyResult → Except PyErr PyResult
  | .resp r => .ok (.resp r)
  | .tupleResp b s hs => .ok (.tupleResp b s hs)
  | .json (.arr []) => .error .indexError
  | .json v => .ok (.tupleTSH (jsonDumps v) 200 ctJson)
  | .tupleTSH t s hs => .ok (.tupleTSH (jsonDumps (tripleJson t s hs)) 200 ctJson)

/-- Outcome of result normalization and the completion log. -/
structure FinishOut where
  result : Except PyErr PyResult
  logs : List LogEvent
  skipHttpLog : Bool

/-- Lines 212-227: compute num_entities, normalize the result, emit the
completion log line and set the flag that suppresses the automatic HTTP
access log.  When num_entities is truthy the log line interpolates the
entity_type local, which is unbound (NameError) unless method_params was a
dict; when it is falsy the line carries no count.  The flag is set only
after the log line is successfully emitted. -/
def finishUp (entityTypeVar : Option Json) (r : PyResult) : FinishOut :=
  match numEntitiesOf r with
  | .error e => ⟨.error e, [], false⟩
  | .ok ne =>
    match serializeResult r with
    | .error e => ⟨.error e, [], false⟩
    | .ok r2 =>
      match ne with
      | some (n + 1) =>
          (match entityTypeVar with
           | none => ⟨.error (.nameError "entity_type"), [], false⟩
           | some et => ⟨.ok r2, [.returned (some (n + 1, et))], true⟩)
      | _ => ⟨.ok r2, [.returned none], true⟩

/-- Association lookup in the method registry. -/
def lookupHandler : List (String × Handler) → String → Option Handler
  | [], _ => none
  | (k, h) :: rest, name => if k = name then some h else lookupHandler rest name

/-- Everything observable about one json_api invocation: the view result
or the uncaught exception, the ordered log events, the upstream calls,
the names of handlers invoked, the values delivered into a generator
handler at its send/throw site, and the skip_http_log flag. -/
structure DispatchOut where
  result : Except PyErr PyResult
  logs : List LogEvent
  calls : List UpstreamCall
  invoked : List String
  resumptions : List (Except PyErr Json)
  skipHttpLog : Bool

/-- Lines 150-158: the unknown-method path.  The passing-through log line
is emitted and the entire stored envelope is delegated to upstream in
streaming mode; the view returns this response immediately, before the
timing, completion-log and skip-flag code runs. -/
def unknownDispatch (env : Env) (payload : Json) (ctx : EnvelopeCtx)
    (hl : HeadlineOut) : DispatchOut :=
  let po := passthrough env payload .null .null true true false
  let outcome : Except PyErr PyResult := match po.result with
    | .ok (.respV r) => .ok (.resp r)
    | .ok (.dataV d) => .ok (.json d)
    | .error e => .error e
  ⟨outcome, [hl.event, .unknownMethod ctx.methodName], po.calls, [], [], false⟩

/-- Lines 160-229: the known-method path: the try body, the exception
dispatch, and the normalization/completion step, with the log events in
their emission order. -/
def knownDispatch (env : Env) (payload : Json) (ctx : EnvelopeCtx)
    (hl : HeadlineOut) (name : String) (h : Handler) : DispatchOut :=
  let t := tryBlock env payload h ctx.methodParams
  let ex := exceptDispatch env t.api3_payload ctx.methodName t.result
  match ex.result with
  | .error e =>
      ⟨.error e, [hl.event] ++ t.warns.map LogEvent.extraYield ++ ex.logs,
       t.calls ++ ex.calls, [name], t.resumptions, false⟩
  | .ok r =>
    let fin := finishUp hl.entityTypeVar r
    ⟨fin.result,
     [hl.event] ++ t.warns.map LogEvent.extraYield ++ ex.logs ++ fin.logs,
     t.calls ++ ex.calls, [name], t.resumptions, fin.skipHttpLog⟩

/-- Shallow embedding of the json_api view function (lines 107-229).
Parse the body (an undecodable body raises), answer 400 with an empty body
for a non-dict payload or a KeyError during extraction, log the headline,
resolve the method: unknown methods delegate via a streaming passthrough
and return immediately; known methods run the try body, the exception
dispatch, and the normalization/completion step. -/
def json_api (env : Env) : DispatchOut :=
  match jsonLoads env.requestData with
  | .error e => ⟨.error e, [], [], [], [], false⟩
  | .ok payload =>
    match payload with
    | .obj fs =>
      (match extractEnvelope fs with
       | .error (.keyError _) => ⟨.ok (.tupleTSH "" 400 []), [], [], [], [], false⟩
       | .error e => ⟨.error e, [], [], [], [], false⟩
       | .ok ctx =>
         match headlineStep ctx with
         | .error e => ⟨.error e, [], [], [], [], false⟩
         | .ok hl =>
           let methodLookup : Except PyErr (Option Handler) :=
             match ctx.methodName with
             | .str name => .ok (lookupHandler env.registry name)
             | .arr _ => .error (.typeError "unhashable type")
             | .obj _ => .error (.typeError "unhashable type")
             | _ => .ok none
           match methodLookup with
           | .error e => ⟨.error e, [hl.event], [], [], [], false⟩
           | .ok none => unknownDispatch env payload ctx hl
           | .ok (some h) =>
             let name := match ctx.methodName with | .str s => s | _ => ""
             knownDispatch env payload ctx hl name h)
    | _ => ⟨.ok (.tupleTSH "" 400 []), [], [], [], [], false⟩

/-- One HTTP request issued by the binary streaming proxy to the upstream
server (http_session.request at line 251). -/
structure ProxyCall where
  method : String
  url : String
  args : List (String × String)
  headers : List (String × String)
  body : String
deriving DecidableEq, Repr

/-- The incoming request the binary proxy view receives. -/
structure ProxyRequest where
  method : String
  path : String
  args : List (String × String)
  headers : List (String × String)
  body : String
deriving DecidableEq, Repr

/-- Shallow embedding of the proxy view (lines 239-266): forward the
request with the same method, path and query args to the fallback server,
with the Host header and all hop-by-hop headers stripped from the outbound
set, then relay the upstream status, its headers with hop-by-hop headers
stripped, and its body.  Returns the outbound call and the relayed
response. -/
def proxy (upstreamFn : ProxyCall → HttpResponse) (req : ProxyRequest) :
    ProxyCall × WireResponse :=
  let url := FALLBACK_SERVER ++ req.path
  let headers := remove_hop_by_hop_headers
    (req.headers.filter (fun kv => !(lowerStr kv.1 == "host")))
  let call : ProxyCall := ⟨req.method, url, req.args, headers, req.body⟩
  let remote_response := upstreamFn call
  let outHeaders := remove_hop_by_hop_headers remote_response.headers
  (call, ⟨remote_response.text, remote_response.status, outHeaders⟩)

instance {ε α : Type} [DecidableEq ε] [DecidableEq α] : DecidableEq (Except ε α) :=
  fun a b =>
    match a, b with
    | .ok x, .ok y =>
        if h : x = y then isTrue (by rw [h])
        else isFalse (fun hh => h (by cases hh; rfl))
    | .error x, .error y =>
        if h : x = y then isTrue (by rw [h])
        else isFalse (fun hh => h (by cases hh; rfl))
    | .ok _, .error _ => isFalse (fun h => Except.noConfusion h)
    | .error _, .ok _ => isFalse (fun h => Except.noConfusion h)

/-- Recognizer for the completion log event. -/
def isReturnedEvent : LogEvent → Bool
  | .returned _ => true
  | _ => false

/-! Concrete fixtures used by the closed theorems and witnesses below. -/

/-- Fields of a well-formed request envelope: script auth and a dict of
method params with a type field; params has the usual two slots. -/
def fsA : List (String × Json) :=
  [("method_name", .str "foo"),
   ("params", .arr [.obj [("script_name", .str "s")],
                    .obj [("type", .str "Shot")]])]

/-- The corresponding envelope value. -/
def envelopeA : Json := .obj fsA

/-- The envelope context json_api extracts from envelopeA. -/
def ctxA : EnvelopeCtx :=
  ⟨.str "foo",
   .arr [.obj [("script_name", .str "s")], .obj [("type", .str "Shot")]],
   .obj [("script_name", .str "s")], .obj [("type", .str "Shot")]⟩

/-- The headline output for envelopeA. -/
def hlA : HeadlineOut :=
  ⟨.headline (.str "foo") (some (.str "Shot")) none
     (some (.script (.str "s") none)),
   some (.str "Shot")⟩

/-- A handler that raises Fault(102, "Not found"). -/
def faultHandler : Handler := fun _ => .error (.fault 102 "Not found")

/-- Request whose handler raises a Fault. -/
def envC1 : Env :=
  ⟨jsonDumps envelopeA, [("Host", "cache"), ("X-K", "v")],
   [("foo", faultHandler)], false, fun _ => ⟨200, "x", []⟩⟩

/-- Continuation of the recovering two-phase handler: resumed normally it
yields the received value back as its result; a thrown failure would be
recovered with the value "caught". -/
def recoverK : Except PyErr Json → Gen :=
  fun r =>
    match r with
    | .ok v => .yield v (fun _ => .stop)
    | .error _ => .yield (.str "caught") (fun _ => .stop)

/-- A two-phase handler: yields a params override once, then behaves as
recoverK. -/
def genRecoverHandler : Handler :=
  fun _ => .ok (.gen (.yield (.obj [("q", .num 1)]) recoverK))

/-- Request whose two-phase handler's upstream call fails with a 502. -/
def envC2 : Env :=
  ⟨jsonDumps envelopeA, [], [("foo", genRecoverHandler)], false,
   fun _ => ⟨502, "oops", []⟩⟩

/-- Unknown-method request: empty registry; the upstream answers 200 with
a body and a distinctive header of its own. -/
def envC3 : Env :=
  ⟨jsonDumps envelopeA, [("Host", "cache"), ("Connection", "keep-alive")],
   [], false, fun _ => ⟨200, "RESULT", [("X-Upstream", "1")]⟩⟩

/-- A POST body that is not decodable JSON. -/
def envC4 : Env :=
  ⟨"notjson", [], [("foo", faultHandler)], false, fun _ => ⟨200, "x", []⟩⟩

/-- A POST body that decodes to a JSON list, not a map. -/
def envC4w : Env := ⟨"[1]", [], [], false, fun _ => ⟨200, "x", []⟩⟩

/-- A handler returning a plain dict value. -/
def okHandler : Handler := fun _ => .ok (.val (.obj [("ok", .bool true)]))

/-- Known-method request with a direct handler. -/
def envC8w : Env :=
  ⟨jsonDumps envelopeA, [], [("foo", okHandler)], false, fun _ => ⟨200, "x", []⟩⟩

/-- A binary-proxy upstream that (pathologically) echoes a Host header
and a hop-by-hop header in its response. -/
def proxyUpstreamA : ProxyCall → HttpResponse :=
  fun _ => ⟨200, "BODY", [("Host", "evil"), ("Connection", "close"), ("X-R", "1")]⟩

/-- A binary-proxy request carrying Host, hop-by-hop and ordinary headers. -/
def proxyReqA : ProxyRequest :=
  ⟨"GET", "/file_serve/x", [("q", "1")],
   [("Host", "cache"), ("Connection", "keep-alive"), ("X-A", "2")], "data"⟩

/-- Upstream answering 200 with a body whose exception key holds false. -/
def envC6x : Env :=
  ⟨"ignored", [], [], false,
   fun _ => ⟨200, "\x7b\"exception\": false\x7d", []⟩⟩

/-- Upstream answering 200 with a fault-encoded body (exception true). -/
def envC6w : Env :=
  ⟨"ignored", [], [], false,
   fun _ => ⟨200, "\x7b\"exception\": true, \"error_code\": 102\x7d", []⟩⟩

/-- Envelope fields whose params sequence has only the auth slot. -/
def fsB : List (String × Json) :=
  [("method_name", .str "foo"),
   ("params", .arr [.obj [("script_name", .str "s")]])]

/-- Two-phase request whose envelope has a one-slot params sequence. -/
def envC5x : Env :=
  ⟨jsonDumps (.obj fsB), [], [("foo", genRecoverHandler)], false,
   fun _ => ⟨200, "\x7b\"ok\": true\x7d", []⟩⟩

/-- Two-phase request with the usual two-slot params sequence. -/
def envC5w : Env :=
  ⟨jsonDumps envelopeA, [], [("foo", genRecoverHandler)], false,
   fun _ => ⟨200, "\x7b\"a\": 1\x7d", []⟩⟩

/-- Last continuation of the three-yield handler: one extra yield, then
the generator finishes. -/
def gen3K2 : Except PyErr Json → Gen :=
  fun _ => .yield (.num 7) (fun _ => .stop)

/-- Second continuation of the three-yield handler: yields the final
result. -/
def gen3K1 : Except PyErr Json → Gen :=
  fun _ => .yield (.str "final") gen3K2

/-- A two-phase handler that yields three times: the params override, the
final result, and one extra value. -/
def gen3Handler : Handler :=
  fun _ => .ok (.gen (.yield (.obj [("q", .num 1)]) gen3K1))

/-- Request served by the three-yield handler. -/
def envC9w : Env :=
  ⟨jsonDumps envelopeA, [], [("foo", gen3Handler)], false,
   fun _ => ⟨200, "\x7b\"a\": 1\x7d", []⟩⟩

/-- C1: the spec says a handler raising Fault(102, "Not found") yields a
200 response with the JSON fault body, and a warning log of code and
message.  The warning is logged, but the response-building line evaluates
json.dumps(res_data) while the local variable is named result_data, so the
dispatcher raises NameError instead of returning the fault body: the code
contradicts its own preceding assignment. -/
theorem c1_fault_path_nameError :
    (json_api envC1).result = .error (.nameError "res_data") ∧
    LogEvent.faultWarning 102 "Not found" ∈ (json_api envC1).logs := by
  constructor
  · rfl
  · decide

/-- C2: the spec says an upstream failure during a two-phase handler's
call is thrown into the handler at its resumption point.  The source line
coroutine.throw(*sys.exc_info()) references sys, which is never imported
in this module, so a NameError is raised instead: the handler (which here
would recover if the failure reached it) is never resumed at all, and the
NameError propagates as an unhandled error. -/
theorem c2_upstream_failure_nameError :
    (json_api envC2).result = .error (.nameError "sys") ∧
    (json_api envC2).resumptions = [] := by
  constructor
  · rfl
  · rfl

/-- Bind of an error in the Except monad. -/
theorem exceptBind_err {ε α β : Type} (e : ε) (f : α → Except ε β) :
    (Except.error e >>= f) = Except.error e := rfl

/-- Bind of an ok value in the Except monad. -/
theorem exceptBind_ok {ε α β : Type} (a : α) (f : α → Except ε β) :
    (Except.ok a >>= f) = f a := rfl

/-- Envelope extraction raises KeyError for a missing method_name. -/
theorem extractEnvelope_err_method (fs : List (String × Json))
    (h : lookupField fs "method_name" = none) :
    extractEnvelope fs = .error (.keyError "method_name") := by
  simp [extractEnvelope, pyGetItem, h, exceptBind_err, exceptBind_ok]

/-- Envelope extraction raises KeyError for a missing params. -/
theorem extractEnvelope_err_params (fs : List (String × Json)) (m : Json)
    (hm : lookupField fs "method_name" = some m)
    (h : lookupField fs "params" = none) :
    extractEnvelope fs = .error (.keyError "params") := by
  simp [extractEnvelope, pyGetItem, hm, h, exceptBind_err, exceptBind_ok]

/-- A well-formed request whose method is unregistered reduces to the
unknown-method dispatch path. -/
theorem json_api_unknown_step (env : Env) (fs : List (String × Json))
    (ctx : EnvelopeCtx) (hl : HeadlineOut) (name : String)
    (hparse : jsonLoads env.requestData = .ok (.obj fs))
    (hex : extractEnvelope fs = .ok ctx)
    (hhl : headlineStep ctx = .ok hl)
    (hname : ctx.methodName = .str name)
    (hreg : lookupHandler env.registry name = none) :
    json_api env = unknownDispatch env (.obj fs) ctx hl := by
  simp only [json_api, hparse, hex, hhl, hname, hreg]

/-- A well-formed request whose method is registered reduces to the
known-method dispatch path. -/
theorem json_api_known_step (env : Env) (fs : List (String × Json))
    (ctx : EnvelopeCtx) (hl : HeadlineOut) (name : String) (h : Handler)
    (hparse : jsonLoads env.requestData = .ok (.obj fs))
    (hex : extractEnvelope fs = .ok ctx)
    (hhl : headlineStep ctx = .ok hl)
    (hname : ctx.methodName = .str name)
    (hreg : lookupHandler env.registry name = some h) :
    json_api env = knownDispatch env (.obj fs) ctx hl name h := by
  simp only [json_api, hparse, hex, hhl, hname, hreg]

/-- Evaluation of the unknown-method path: one streaming upstream call
with the sanitized headers and the re-serialized envelope as body; a 200
answer is relayed as body text with status 200 and a JSON content type,
any other status raises the relayed-error exception. -/
theorem unknownDispatch_eval (env : Env) (fs : List (String × Json))
    (ctx : EnvelopeCtx) (hl : HeadlineOut) :
    unknownDispatch env (.obj fs) ctx hl =
      ⟨(if (env.upstream ⟨FALLBACK_URL, jsonDumps (.obj fs),
              sanitizeHeaders env.requestHeaders, true⟩).status ≠ 200 then
          .error (.returnPassthroughError
            (env.upstream ⟨FALLBACK_URL, jsonDumps (.obj fs),
              sanitizeHeaders env.requestHeaders, true⟩).text
            (env.upstream ⟨FALLBACK_URL, jsonDumps (.obj fs),
              sanitizeHeaders env.requestHeaders, true⟩).status ctJson)
        else .ok (.resp ⟨(env.upstream ⟨FALLBACK_URL, jsonDumps (.obj fs),
              sanitizeHeaders env.requestHeaders, true⟩).text, 200, ctJson⟩)),
       [hl.event, .unknownMethod ctx.methodName],
       [⟨FALLBACK_URL, jsonDumps (.obj fs), sanitizeHeaders env.requestHeaders, true⟩],
       [], [], false⟩ := by
  by_cases hs : (env.upstream ⟨FALLBACK_URL, jsonDumps (.obj fs),
      sanitizeHeaders env.requestHeaders, true⟩).status = 200
  · simp [unknownDispatch, passthrough, effectivePayload, payloadData, hs]
  · simp [unknownDispatch, passthrough, effectivePayload, payloadData, hs]

/-- When the normalization/completion step returns normally, its log is
exactly one completion event and the skip flag is set. -/
theorem finishUp_ok_shape (etv : Option Json) (r0 : PyResult) (r : PyResult)
    (h : (finishUp etv r0).result = .ok r) :
    (∃ c, (finishUp etv r0).logs = [.returned c]) ∧
    (finishUp etv r0).skipHttpLog = true := by
  cases hne : numEntitiesOf r0 with
  | error e => simp [finishUp, hne] at h
  | ok ne =>
    cases hse : serializeResult r0 with
    | error e => simp [finishUp, hne, hse] at h
    | ok r2 =>
      cases ne with
      | none =>
          exact ⟨⟨none, by simp [finishUp, hne, hse]⟩, by simp [finishUp, hne, hse]⟩
      | some n =>
        cases n with
        | zero =>
            exact ⟨⟨none, by simp [finishUp, hne, hse]⟩, by simp [finishUp, hne, hse]⟩
        | succ m =>
          cases etv with
          | none => simp [finishUp, hne, hse] at h
          | some et =>
              exact ⟨⟨some (m + 1, et), by simp [finishUp, hne, hse]⟩,
                by simp [finishUp, hne, hse]⟩

/-- C3: counterexample.  The claim says the unknown-method response's
body, status and headers equal exactly those of a direct streaming call to
upstream with the same request body and sanitized headers.  Here the
direct call answers 200 with an X-Upstream header, but the dispatcher's
response carries only Content-Type application/json: upstream headers are
not relayed. -/
theorem c3_counterexample :
    (json_api envC3).result = .ok (.resp ⟨"RESULT", 200, ctJson⟩) ∧
    (envC3.upstream ⟨FALLBACK_URL, envC3.requestData,
        sanitizeHeaders envC3.requestHeaders, true⟩).headers = [("X-Upstream", "1")] ∧
    ctJson ≠ [("X-Upstream", "1")] := by
  refine ⟨rfl, rfl, ?_⟩
  decide

/-- C3 (amended): for a well-formed envelope naming an unregistered
method, no handler is invoked and the request is delegated via exactly one
streaming passthrough call carrying the sanitized request headers and the
re-serialized parsed envelope as body; a 200 upstream answer is returned
as a 200 response with the upstream body and Content-Type application/json
only, and a non-200 answer makes the relayed-error exception escape the
view uncaught.  No completion log is emitted and the skip flag stays
unset. -/
theorem c3_unknown_method_delegates (env : Env) (fs : List (String × Json))
    (ctx : EnvelopeCtx) (hl : HeadlineOut) (name : String)
    (hparse : jsonLoads env.requestData = .ok (.obj fs))
    (hex : extractEnvelope fs = .ok ctx)
    (hhl : headlineStep ctx = .ok hl)
    (hname : ctx.methodName = .str name)
    (hreg : lookupHandler env.registry name = none) :
    (json_api env).invoked = [] ∧
    (json_api env).calls =
      [⟨FALLBACK_URL, jsonDumps (.obj fs), sanitizeHeaders env.requestHeaders, true⟩] ∧
    (json_api env).logs = [hl.event, .unknownMethod ctx.methodName] ∧
    (json_api env).skipHttpLog = false ∧
    ((env.upstream ⟨FALLBACK_URL, jsonDumps (.obj fs),
        sanitizeHeaders env.requestHeaders, true⟩).status = 200 →
      (json_api env).result = .ok (.resp ⟨(env.upstream ⟨FALLBACK_URL,
        jsonDumps (.obj fs), sanitizeHeaders env.requestHeaders, true⟩).text,
        200, ctJson⟩)) ∧
    ((env.upstream ⟨FALLBACK_URL, jsonDumps (.obj fs),
        sanitizeHeaders env.requestHeaders, true⟩).status ≠ 200 →
      (json_api env).result = .error (.returnPassthroughError
        (env.upstream ⟨FALLBACK_URL, jsonDumps (.obj fs),
          sanitizeHeaders env.requestHeaders, true⟩).text
        (env.upstream ⟨FALLBACK_URL, jsonDumps (.obj fs),
          sanitizeHeaders env.requestHeaders, true⟩).status ctJson)) := by
  have hstep := json_api_unknown_step env fs ctx hl name hparse hex hhl hname hreg
  rw [hstep, unknownDispatch_eval]
  refine ⟨rfl, rfl, rfl, rfl, fun h200 => ?_, fun hne => ?_⟩
  · simp [h200]
  · simp [hne]

/-- C3: witness, applying the amended theorem to a concrete unknown-method
request whose upstream answers 200. -/
theorem c3_witness :
    (json_api envC3).invoked = [] ∧
    (json_api envC3).calls =
      [⟨FALLBACK_URL, jsonDumps (.obj fsA), sanitizeHeaders envC3.requestHeaders, true⟩] ∧
    (json_api envC3).result = .ok (.resp ⟨"RESULT", 200, ctJson⟩) :=
  ⟨(c3_unknown_method_delegates envC3 fsA ctxA hlA "foo" rfl rfl rfl rfl rfl).1,
   (c3_unknown_method_delegates envC3 fsA ctxA hlA "foo" rfl rfl rfl rfl rfl).2.1,
   (c3_unknown_method_delegates envC3 fsA ctxA hlA "foo"
      rfl rfl rfl rfl rfl).2.2.2.2.1 rfl⟩

/-- C4: counterexample.  The claim says every POST body that does not
decode to a JSON map yields a client-error status with an empty body.  An
undecodable body instead raises the JSON decode error, which nothing in
the view catches, so no 400 response is produced. -/
theorem c4_counterexample :
    (json_api envC4).result = .error .jsonDecodeError ∧
    (json_api envC4).result ≠ .ok (.tupleTSH "" 400 []) := by
  constructor
  · rfl
  · decide

/-- C4 (amended): a body that decodes to JSON but not to a map, or to a
map lacking method_name or params, yields status 400 with an empty body,
no log, no handler invocation and no upstream call; bodies that fail JSON
decoding instead raise and are not turned into a 400. -/
theorem c4_malformed_envelope_400 (env : Env) (v : Json)
    (hparse : jsonLoads env.requestData = .ok v)
    (hshape : (∀ fs, v ≠ .obj fs) ∨
      (∃ fs, v = .obj fs ∧
        (lookupField fs "method_name" = none ∨ lookupField fs "params" = none))) :
    json_api env = ⟨.ok (.tupleTSH "" 400 []), [], [], [], [], false⟩ := by
  rcases hshape with hno | ⟨fs, rfl, hmiss⟩
  · unfold json_api
    rw [hparse]
    cases v with
    | obj fs => exact absurd rfl (hno fs)
    | null => rfl
    | bool b => rfl
    | num n => rfl
    | str s => rfl
    | arr xs => rfl
  · have hE : extractEnvelope fs = .error (.keyError "method_name") ∨
        extractEnvelope fs = .error (.keyError "params") := by
      rcases hmiss with hm | hp
      · exact .inl (extractEnvelope_err_method fs hm)
      · cases hlm : lookupField fs "method_name" with
        | none => exact .inl (extractEnvelope_err_method fs hlm)
        | some m => exact .inr (extractEnvelope_err_params fs m hlm hp)
    rcases hE with hE | hE <;> simp only [json_api, hparse, hE]

/-- C4: witness, applying the amended theorem to a body that decodes to a
JSON list. -/
theorem c4_witness :
    jsonLoads envC4w.requestData = .ok (.arr [.num 1]) ∧
    json_api envC4w = ⟨.ok (.tupleTSH "" 400 []), [], [], [], [], false⟩ :=
  ⟨rfl, c4_malformed_envelope_400 envC4w (.arr [.num 1]) rfl
    (.inl (fun _fs h => Json.noConfusion h))⟩

/-- C7: counterexample.  The claim says Host is absent from every
upstream response the binary proxy relays back.  The proxy strips only
hop-by-hop headers from the relayed response set, so a Host header sent by
the upstream is relayed to the caller. -/
theorem c7_counterexample :
    ("Host", "evil") ∈ (proxy proxyUpstreamA proxyReqA).2.headers := by
  decide

/-- C7 (amended): every outbound request this layer sends upstream (JSON
passthrough and binary proxy) carries no Host header and no hop-by-hop
header; the response the binary proxy relays back carries no hop-by-hop
header (Host however is not stripped from relayed response headers). -/
theorem c7_header_sanitization :
    (∀ (env : Env) (g pl pr : Json) (re st fi : Bool),
      ∀ c ∈ (passthrough env g pl pr re st fi).calls,
        c.headers = sanitizeHeaders env.requestHeaders) ∧
    (∀ (hs : List (String × String)) (k v : String),
      (k, v) ∈ sanitizeHeaders hs →
        lowerStr k ≠ "host" ∧ HOP_BY_HOP_HEADERS.contains (lowerStr k) = false) ∧
    (∀ (f : ProxyCall → HttpResponse) (req : ProxyRequest) (k v : String),
      (k, v) ∈ (proxy f req).1.headers →
        lowerStr k ≠ "host" ∧ HOP_BY_HOP_HEADERS.contains (lowerStr k) = false) ∧
    (∀ (f : ProxyCall → HttpResponse) (req : ProxyRequest) (k v : String),
      (k, v) ∈ (proxy f req).2.headers →
        HOP_BY_HOP_HEADERS.contains (lowerStr k) = false) := by
  have hsan : ∀ (hs : List (String × String)) (k v : String),
      (k, v) ∈ sanitizeHeaders hs →
        lowerStr k ≠ "host" ∧ HOP_BY_HOP_HEADERS.contains (lowerStr k) = false := by
    intro hs k v hm
    simp only [sanitizeHeaders, remove_hop_by_hop_headers, List.mem_filter,
      Bool.not_eq_eq_eq_not, Bool.not_true, beq_eq_false_iff_ne] at hm
    obtain ⟨⟨_, hhost⟩, hhop⟩ := hm
    exact ⟨hhost, by simpa using hhop⟩
  refine ⟨?_, hsan, ?_, ?_⟩
  · intro env g pl pr re st fi c hc
    cases heff : effectivePayload g pl pr with
    | error e =>
        simp only [passthrough, heff] at hc
        simp at hc
    | ok p1 =>
        simp only [passthrough, heff] at hc
        split at hc <;> [skip; split at hc] <;>
          first
          | (simp at hc; rw [hc])
          | (split at hc <;>
              first
              | (simp at hc; rw [hc])
              | (split at hc <;> first
                  | (simp at hc; rw [hc])
                  | (split at hc <;> (simp at hc; rw [hc]))))
  · intro f req k v hm
    exact hsan req.headers k v hm
  · intro f req k v hm
    simp only [proxy, remove_hop_by_hop_headers, List.mem_filter,
      Bool.not_eq_eq_eq_not, Bool.not_true] at hm
    simpa using hm.2

/-- C7: witness, applying the amended theorem to a concrete sanitized
request header and a concrete relayed response header. -/
theorem c7_witness :
    (("X-A", "2") ∈ sanitizeHeaders proxyReqA.headers ∧
      lowerStr "X-A" ≠ "host" ∧
      HOP_BY_HOP_HEADERS.contains (lowerStr "X-A") = false) ∧
    (("X-R", "1") ∈ (proxy proxyUpstreamA proxyReqA).2.headers ∧
      HOP_BY_HOP_HEADERS.contains (lowerStr "X-R") = false) :=
  ⟨⟨by decide, c7_header_sanitization.2.1 proxyReqA.headers "X-A" "2" (by decide)⟩,
   ⟨by decide, c7_header_sanitization.2.2.2 proxyUpstreamA proxyReqA "X-R" "1"
      (by decide)⟩⟩

/-- C8: counterexample.  The claim says the completion log line is emitted
and the skip flag set on every path including passthrough-delegation.  On
the unknown-method delegation path the view returns before the completion
code: no completion event is logged and the flag stays false, although the
request was served normally. -/
theorem c8_counterexample :
    (json_api envC3).result = .ok (.resp ⟨"RESULT", 200, ctJson⟩) ∧
    (json_api envC3).logs.any isReturnedEvent = false ∧
    (json_api envC3).skipHttpLog = false := by
  refine ⟨rfl, ?_, rfl⟩
  decide

/-- C8 (amended): on the known-method path, whenever the view returns a
result without an uncaught exception, its log trace contains the
completion event and the skip-http-log flag is set; the unknown-method
delegation path (see the counterexample) returns earlier and does
neither. -/
theorem c8_completion_log (env : Env) (fs : List (String × Json))
    (ctx : EnvelopeCtx) (hl : HeadlineOut) (name : String) (h : Handler)
    (r : PyResult)
    (hparse : jsonLoads env.requestData = .ok (.obj fs))
    (hex : extractEnvelope fs = .ok ctx)
    (hhl : headlineStep ctx = .ok hl)
    (hname : ctx.methodName = .str name)
    (hreg : lookupHandler env.registry name = some h)
    (hres : (json_api env).result = .ok r) :
    (json_api env).logs.any isReturnedEvent = true ∧
    (json_api env).skipHttpLog = true := by
  have hstep := json_api_known_step env fs ctx hl name h hparse hex hhl hname hreg
  rw [hstep] at hres ⊢
  simp only [knownDispatch] at hres ⊢
  cases hexr : (exceptDispatch env
      (tryBlock env (.obj fs) h ctx.methodParams).api3_payload ctx.methodName
      (tryBlock env (.obj fs) h ctx.methodParams).result).result with
  | error e =>
      rw [hexr] at hres
      simp at hres
  | ok r0 =>
      rw [hexr] at hres
      dsimp only at hres ⊢
      obtain ⟨⟨c, hlogs⟩, hskip⟩ := finishUp_ok_shape hl.entityTypeVar r0 r hres
      constructor
      · simp [hlogs, isReturnedEvent]
      · exact hskip

/-- C6: counterexample.  The claim says that when the caller requests
exception-sensitive behavior, only a decoded value containing exception:
true triggers the return-this-exact-response signal, and otherwise the
decoded value is returned as plain data.  The source tests only key
presence: a body whose exception key holds false still raises the signal
instead of returning plain data. -/
theorem c6_counterexample :
    jsonLoads "\x7b\"exception\": false\x7d" =
      .ok (.obj [("exception", .bool false)]) ∧
    (passthrough envC6x envelopeA .null .null true false false).result =
      .error (.returnResponse "\x7b\"exception\": false\x7d" 200 ctJson) := by
  constructor
  · rfl
  · rfl

/-- C6 (amended): for a buffered (non-streaming, non-final) passthrough
call answered with 200, the body is decoded as JSON; when the caller
requested exception-sensitive behavior and the decoded value contains an
exception key (regardless of that key's value), the outcome is the
return-this-exact-response signal carrying status 200 and the original
body text unmodified; otherwise the decoded value is returned as plain
data. -/
theorem c6_buffered_200 (env : Env) (g pl pr p1 d : Json) (re b : Bool)
    (hp : effectivePayload g pl pr = .ok p1)
    (hstatus : (env.upstream ⟨FALLBACK_URL, payloadData p1,
        sanitizeHeaders env.requestHeaders, false⟩).status = 200)
    (hdec : jsonLoads (env.upstream ⟨FALLBACK_URL, payloadData p1,
        sanitizeHeaders env.requestHeaders, false⟩).text = .ok d)
    (hcon : pyContains d "exception" = .ok b) :
    (passthrough env g pl pr re false false).result =
      (if re && b then
        .error (.returnResponse (env.upstream ⟨FALLBACK_URL, payloadData p1,
          sanitizeHeaders env.requestHeaders, false⟩).text 200 ctJson)
       else .ok (.dataV d)) := by
  simp only [passthrough, hp]
  simp [hstatus, hdec, hcon]
  split <;> rfl

/-- C6: witness, applying the amended theorem to an upstream answering a
fault-encoded 200 body with an exception-sensitive caller. -/
theorem c6_witness :
    effectivePayload envelopeA Json.null Json.null = .ok envelopeA ∧
    (passthrough envC6w envelopeA .null .null true false false).result =
      .error (.returnResponse
        "\x7b\"exception\": true, \"error_code\": 102\x7d" 200 ctJson) :=
  ⟨rfl,
   c6_buffered_200 envC6w envelopeA .null .null envelopeA
     (.obj [("exception", .bool true), ("error_code", .num 102)]) true true
     rfl rfl rfl rfl⟩

/-- C8: witness, applying the amended theorem to a registered direct
handler returning a plain dict. -/
theorem c8_witness :
    (json_api envC8w).result =
      .ok (.tupleTSH "\x7b\"ok\": true\x7d" 200 ctJson) ∧
    (json_api envC8w).logs.any isReturnedEvent = true ∧
    (json_api envC8w).skipHttpLog = true :=
  ⟨rfl,
   (c8_completion_log envC8w fsA ctxA hlA "foo" okHandler
      (.tupleTSH "\x7b\"ok\": true\x7d" 200 ctJson) rfl rfl rfl rfl rfl rfl).1,
   (c8_completion_log envC8w fsA ctxA hlA "foo" okHandler
      (.tupleTSH "\x7b\"ok\": true\x7d" 200 ctJson) rfl rfl rfl rfl rfl rfl).2⟩

/-- Looking up a different key is unaffected by a field update. -/
theorem lookupField_setField_ne (fs : List (String × Json)) (k k' : String)
    (v : Json) (h : k' ≠ k) :
    lookupField (setField fs k v) k' = lookupField fs k' := by
  induction fs with
  | nil => simp [setField, lookupField, Ne.symm h]
  | cons p rest ih =>
    obtain ⟨pk, pv⟩ := p
    by_cases hp : pk = k
    · subst hp
      have hne : ¬(pk = k') := fun hh => h (by rw [← hh])
      simp [setField, lookupField, hne]
    · by_cases hk' : pk = k'
      · simp [setField, lookupField, hp, hk', h]
      · simp [setField, lookupField, hp, hk', ih]

/-- The known-method dispatch output assembles the try body's upstream
calls (then the exception dispatch's), its resumption record, and the
handler name, whatever the outcome. -/
theorem knownDispatch_fields (env : Env) (payload : Json) (ctx : EnvelopeCtx)
    (hl : HeadlineOut) (name : String) (h : Handler) :
    (knownDispatch env payload ctx hl name h).calls =
      (tryBlock env payload h ctx.methodParams).calls ++
      (exceptDispatch env (tryBlock env payload h ctx.methodParams).api3_payload
        ctx.methodName (tryBlock env payload h ctx.methodParams).result).calls ∧
    (knownDispatch env payload ctx hl name h).resumptions =
      (tryBlock env payload h ctx.methodParams).resumptions ∧
    (knownDispatch env payload ctx hl name h).invoked = [name] := by
  simp only [knownDispatch]
  cases hexr : (exceptDispatch env
      (tryBlock env payload h ctx.methodParams).api3_payload ctx.methodName
      (tryBlock env payload h ctx.methodParams).result).result <;>
    dsimp only <;> exact ⟨rfl, rfl, rfl⟩

/-- For a two-phase handler whose single upstream call succeeds with
decoded data, the try body records exactly that call list and one
resumption carrying the decoded value, regardless of how the generator
continues. -/
theorem tryBlock_gen_ok (env : Env) (api3 : Json) (h : Handler) (mp ov : Json)
    (k : Except PyErr Json → Gen) (d g2 : Json) (cs : List UpstreamCall)
    (hgen : h mp = .ok (.gen (.yield ov k)))
    (hpo : passthrough env api3 .null ov true false false = ⟨.ok (.dataV d), g2, cs⟩) :
    (tryBlock env api3 h mp).calls = cs ∧
    (tryBlock env api3 h mp).resumptions = [.ok d] := by
  simp only [tryBlock, hgen, hpo]
  cases k (.ok d) with
  | stop => exact ⟨rfl, rfl⟩
  | raise e => exact ⟨rfl, rfl⟩
  | yield r k2 =>
      dsimp only
      cases hdr : (drainGen (k2 (.ok .null))).2 with
      | none => exact ⟨rfl, rfl⟩
      | some e => exact ⟨rfl, rfl⟩

/-- C5: counterexample.  The claim says the upstream call keeps the
original envelope's auth params with only the method-params slot replaced
by the yielded override.  With a one-slot params sequence the override is
written into the last slot, which is the auth slot: the call's body is the
envelope with the auth params replaced by the override, and differs from
any body preserving them. -/
theorem c5_counterexample :
    (json_api envC5x).calls.head? = some ⟨FALLBACK_URL,
      jsonDumps (.obj [("method_name", .str "foo"),
        ("params", .arr [.obj [("q", .num 1)]])]),
      [], false⟩ ∧
    jsonDumps (.obj [("method_name", .str "foo"),
        ("params", .arr [.obj [("q", .num 1)]])]) ≠
      jsonDumps (.obj [("method_name", .str "foo"),
        ("params", .arr [.obj [("script_name", .str "s")], .obj [("q", .num 1)]])]) := by
  constructor
  · rfl
  · decide

/-- C5 (amended): for a two-phase handler driven on an envelope whose
params sequence has exactly two slots, the single upstream call the yield
triggers carries the original envelope with the override written into the
last slot - here the method-params slot, auth slot and method_name
preserved - and on a 200 answer decoding without an exception key the
handler is resumed with exactly the decoded JSON value. -/
theorem c5_two_phase_call (env : Env) (fsE : List (String × Json))
    (ctx : EnvelopeCtx) (hl : HeadlineOut) (name : String) (h : Handler)
    (a mp ov : Json) (k : Except PyErr Json → Gen) (d : Json)
    (hparse : jsonLoads env.requestData = .ok (.obj fsE))
    (hex : extractEnvelope fsE = .ok ctx)
    (hhl : headlineStep ctx = .ok hl)
    (hname : ctx.methodName = .str name)
    (hreg : lookupHandler env.registry name = some h)
    (hgen : h ctx.methodParams = .ok (.gen (.yield ov k)))
    (hparams : lookupField fsE "params" = some (.arr [a, mp]))
    (hov : ov ≠ .null)
    (hstatus : (env.upstream ⟨FALLBACK_URL,
        payloadData (.obj (setField fsE "params" (.arr [a, ov]))),
        sanitizeHeaders env.requestHeaders, false⟩).status = 200)
    (hdec : jsonLoads (env.upstream ⟨FALLBACK_URL,
        payloadData (.obj (setField fsE "params" (.arr [a, ov]))),
        sanitizeHeaders env.requestHeaders, false⟩).text = .ok d)
    (hcon : pyContains d "exception" = .ok false) :
    (json_api env).calls.head? = some ⟨FALLBACK_URL,
        payloadData (.obj (setField fsE "params" (.arr [a, ov]))),
        sanitizeHeaders env.requestHeaders, false⟩ ∧
    (json_api env).resumptions = [.ok d] ∧
    lookupField (setField fsE "params" (.arr [a, ov])) "method_name" =
      lookupField fsE "method_name" := by
  have hpo : passthrough env (.obj fsE) .null ov true false false =
      ⟨.ok (.dataV d), .obj fsE,
       [⟨FALLBACK_URL, payloadData (.obj (setField fsE "params" (.arr [a, ov]))),
         sanitizeHeaders env.requestHeaders, false⟩]⟩ := by
    unfold passthrough effectivePayload setLastParam
    rw [if_pos rfl, if_neg hov]
    dsimp only
    rw [hparams]
    dsimp only
    simp [hstatus, hdec, hcon]
  rw [json_api_known_step env fsE ctx hl name h hparse hex hhl hname hreg]
  obtain ⟨hc, hr, _⟩ := knownDispatch_fields env (.obj fsE) ctx hl name h
  obtain ⟨htc, htr⟩ :=
    tryBlock_gen_ok env (.obj fsE) h ctx.methodParams ov k d (.obj fsE) _ hgen hpo
  refine ⟨?_, ?_, lookupField_setField_ne fsE "params" "method_name" _ (by decide)⟩
  · rw [hc, htc]
    rfl
  · rw [hr, htr]

/-- C5: witness, applying the amended theorem to a concrete two-slot
envelope and the recovering two-phase handler. -/
theorem c5_witness :
    (json_api envC5w).calls.head? = some ⟨FALLBACK_URL,
      payloadData (.obj (setField fsA "params"
        (.arr [.obj [("script_name", .str "s")], .obj [("q", .num 1)]]))),
      sanitizeHeaders envC5w.requestHeaders, false⟩ ∧
    (json_api envC5w).resumptions = [.ok (.obj [("a", .num 1)])] := by
  have hc := c5_two_phase_call envC5w fsA ctxA hlA "foo" genRecoverHandler
    (.obj [("script_name", .str "s")]) (.obj [("type", .str "Shot")])
    (.obj [("q", .num 1)]) recoverK (.obj [("a", .num 1)])
    rfl rfl rfl rfl rfl rfl rfl (fun hh => Json.noConfusion hh) rfl rfl rfl
  exact ⟨hc.1, hc.2.1⟩

/-- C9: for a two-phase handler that yields more than once (override, a
result at first resumption, and any further values), only the first yield
drives an upstream call, the drained extra values are each logged as a
warning and discarded, the value yielded at the first resumption is kept
as the final result, and the dispatcher completes normally. -/
theorem c9_extra_yields (env : Env) (fsE : List (String × Json))
    (ctx : EnvelopeCtx) (hl : HeadlineOut) (name : String) (h : Handler)
    (ov : Json) (k : Except PyErr Json → Gen) (d r : Json)
    (k2 : Except PyErr Json → Gen) (ws : List Json) (r2 : PyResult)
    (g2 : Json) (c1 : UpstreamCall)
    (hparse : jsonLoads env.requestData = .ok (.obj fsE))
    (hex : extractEnvelope fsE = .ok ctx)
    (hhl : headlineStep ctx = .ok hl)
    (hname : ctx.methodName = .str name)
    (hreg : lookupHandler env.registry name = some h)
    (hgen : h ctx.methodParams = .ok (.gen (.yield ov k)))
    (hpo : passthrough env (.obj fsE) .null ov true false false =
      ⟨.ok (.dataV d), g2, [c1]⟩)
    (hk : k (.ok d) = .yield r k2)
    (hdrain : drainGen (k2 (.ok .null)) = (ws, none))
    (hne : numEntitiesOf (.json r) = .ok none)
    (hser : serializeResult (.json r) = .ok r2) :
    (json_api env).result = .ok r2 ∧
    (json_api env).calls = [c1] ∧
    (json_api env).resumptions = [.ok d] ∧
    (json_api env).logs =
      hl.event :: (ws.map LogEvent.extraYield ++ [.returned none]) ∧
    (json_api env).skipHttpLog = true := by
  have htry : tryBlock env (.obj fsE) h ctx.methodParams =
      ⟨.ok (.json r), ws, [c1], [.ok d], g2⟩ := by
    simp only [tryBlock, hgen, hpo]
    rw [hk]
    try dsimp only
    rw [hdrain]
  rw [json_api_known_step env fsE ctx hl name h hparse hex hhl hname hreg]
  simp only [knownDispatch, htry]
  simp only [exceptDispatch]
  try dsimp only
  simp only [finishUp, hne, hser]
  try dsimp only
  refine ⟨?_, ?_, ?_, ?_, ?_⟩ <;> simp

/-- C9: witness, applying the theorem to the three-yield handler: the
extra value 7 is warned about and dropped, the first-resumption value
"final" is serialized as the response, and the completion log and skip
flag are produced. -/
theorem c9_witness :
    (json_api envC9w).result = .ok (.tupleTSH "\"final\"" 200 ctJson) ∧
    (json_api envC9w).calls.length = 1 ∧
    (json_api envC9w).logs =
      [hlA.event, .extraYield (.num 7), .returned none] ∧
    (json_api envC9w).skipHttpLog = true := by
  have hc := c9_extra_yields envC9w fsA ctxA hlA "foo" gen3Handler
    (.obj [("q", .num 1)]) gen3K1 (.obj [("a", .num 1)]) (.str "final") gen3K2
    [.num 7] (.tupleTSH "\"final\"" 200 ctJson) (.obj fsA)
    ⟨FALLBACK_URL,
      payloadData (.obj (setField fsA "params"
        (.arr [.obj [("script_name", .str "s")], .obj [("q", .num 1)]]))),
      sanitizeHeaders envC9w.requestHeaders, false⟩
    rfl rfl rfl rfl rfl rfl rfl rfl rfl rfl rfl
  refine ⟨hc.1, ?_, ?_, hc.2.2.2.2⟩
  · rw [hc.2.1]
    rfl
  · rw [hc.2.2.2.1]
    rfl

/-- C10: the stored per-request envelope is threaded through passthrough
unchanged (the deep copy means the override substitution never mutates
it); the substitution writes the override into the last slot of the params
sequence, so for a two-or-more-slot sequence the head (auth) slot is
preserved and the last slot replaced, while for a one-slot sequence the
auth slot itself is overwritten. -/
theorem c10_deepcopy_and_last_slot :
    (∀ (env : Env) (g ov : Json) (re st fi : Bool),
      (passthrough env g .null ov re st fi).api3_payload = g) ∧
    (∀ (fs : List (String × Json)) (xs : List Json) (ov : Json),
      lookupField fs "params" = some (.arr xs) → 2 ≤ xs.length →
      setLastParam (.obj fs) ov =
        .ok (.obj (setField fs "params" (.arr (xs.set (xs.length - 1) ov)))) ∧
      (xs.set (xs.length - 1) ov).head? = xs.head?) ∧
    (∀ (fs : List (String × Json)) (a ov : Json),
      lookupField fs "params" = some (.arr [a]) →
      setLastParam (.obj fs) ov = .ok (.obj (setField fs "params" (.arr [ov])))) := by
  refine ⟨?_, ?_, ?_⟩
  · intro env g ov re st fi
    cases heff : effectivePayload g .null ov with
    | error e => simp only [passthrough, heff]
    | ok p1 =>
        simp only [passthrough, heff]
        repeat' split
        all_goals rfl
  · intro fs xs ov hl hlen
    cases xs with
    | nil => simp at hlen
    | cons x1 t =>
      cases t with
      | nil => simp at hlen
      | cons x2 rest =>
        constructor
        · simp [setLastParam, hl]
        · simp [List.length_cons, List.set]
  · intro fs a ov hl
    simp [setLastParam, hl]

/-- C10: witness, applying the theorem to the concrete two-slot and
one-slot envelopes. -/
theorem c10_witness :
    (passthrough envC6w envelopeA .null (.obj [("q", .num 1)])
        true false false).api3_payload = envelopeA ∧
    setLastParam (.obj fsA) (.obj [("q", .num 1)]) =
      .ok (.obj (setField fsA "params"
        (.arr [.obj [("script_name", .str "s")], .obj [("q", .num 1)]]))) ∧
    setLastParam (.obj fsB) (.obj [("q", .num 1)]) =
      .ok (.obj (setField fsB "params" (.arr [.obj [("q", .num 1)]]))) :=
  ⟨c10_deepcopy_and_last_slot.1 envC6w envelopeA (.obj [("q", .num 1)]) true false false,
   (c10_deepcopy_and_last_slot.2.1 fsA
      [.obj [("script_name", .str "s")], .obj [("type", .str "Shot")]]
      (.obj [("q", .num 1)]) rfl (by decide)).1,
   c10_deepcopy_and_last_slot.2.2 fsB (.obj [("script_name", .str "s")])
     (.obj [("q", .num 1)]) rfl⟩

end SGCache
